import Mathlib

/-!
Verification of the quiz-session flow of `src/apps/pages/programs/StudyPrograms/quiz.py`.

The Python program is a Streamlit script that re-executes top to bottom on every
user interaction, reading and writing a per-session key-value store
(`st.session_state`).  The shallow embedding below mirrors that structure:

* `Question`, `HttpResp` model the provider's JSON records;
* `build_url` / `get_quiz_data` embed the provider client (lines 5-42), with the
  HTTP response passed in as an explicit parameter and `st.error` calls logged
  as a returned message list;
* `SessionState` models the keys the script stores in `st.session_state`
  (`quiz_data`, `current_question`, `score`, `quiz_finished`, and the per-index
  families `all_answers_{i}` / `selected_{i}`, embedded as association lists);
* `display_question` embeds the presenter (lines 44-90); the `random.shuffle`
  call is embedded as an oracle function `shuffle` supplied in the input, and
  the Python `list.index` call (which raises `ValueError` when the element is
  absent) makes the result an `Option` — `none` models the uncaught exception;
* `start_quiz` embeds one full top-to-bottom re-execution of the script body
  (lines 92-135): category validation, the Start-button block, and the render
  phase; `Reachable` is the set of session states a sequence of re-executions
  can produce from a fresh session.

Python truthiness tests on optionals, strings and lists are embedded by the
explicit `pyTruthy*` / `isEmpty` functions, mirroring the source's `if category:`,
`if difficulty:`, `if quiz_data:` and `if st.session_state[f"selected_{i}"]`.
-/

namespace Quiz

/-- One trivia item as delivered by the provider (`results` entries):
prompt text, correct answer text, list of incorrect answer texts. -/
structure Question where
  question : String
  correct_answer : String
  incorrect_answers : List String
deriving DecidableEq

/-- The provider's HTTP response, passed to the embedded client explicitly:
transport status code, the JSON body's `response_code`, and its `results`. -/
structure HttpResp where
  status_code : Nat
  response_code : Int
  results : List Question
deriving DecidableEq

/-- Python truthiness of an `Optional[int]`: `None` and `0` are falsy. -/
def pyTruthyOptNat : Option Nat → Bool
  | none => false
  | some n => decide (n ≠ 0)

/-- Python truthiness of an `Optional[str]`: `None` and `""` are falsy. -/
def pyTruthyOptStr : Option String → Bool
  | none => false
  | some s => decide (s ≠ "")

/-- URL construction of `get_quiz_data` (quiz.py lines 17-28): start from
`base_url` + `amount`, append `category` when truthy, `difficulty` when truthy,
then always `&type=multiple`. -/
def build_url (category : Option Nat) (difficulty : Option String) (question_count : Nat) : String :=
  let url := "https://opentdb.com/api.php?" ++ "amount=" ++ toString question_count
  let url := if pyTruthyOptNat category then url ++ "&category=" ++ toString (category.getD 0) else url
  let url := if pyTruthyOptStr difficulty then url ++ "&difficulty=" ++ difficulty.getD "" else url
  url ++ "&type=multiple"

/-- Response handling of `get_quiz_data` (quiz.py lines 30-42).  The pair
returned is (messages shown via `st.error`, returned question list): a non-200
status yields the transport error message and `[]`; a 200 status with
`response_code ≠ 0` yields the no-results message and `[]`; otherwise the
provider's `results` are returned unchanged with no message. -/
def get_quiz_data (category : Option Nat) (difficulty : Option String) (question_count : Nat)
    (resp : HttpResp) : List String × List Question :=
  let _url := build_url category difficulty question_count
  if resp.status_code ≠ 200 then
    (["Failed to retrieve questions. Please try again later."], [])
  else if resp.response_code ≠ 0 then
    (["No questions found for the selected options."], [])
  else
    ([], resp.results)

/-- Python `str.isdigit` restricted to decimal digits: non-empty and all
characters are digits (quiz.py line 100). -/
def str_isdigit (s : String) : Bool :=
  !s.data.isEmpty && s.data.all Char.isDigit

/-- Python `int(...)` on a digit string (quiz.py line 101). -/
def str_toNat (s : String) : Nat :=
  s.data.foldl (fun n c => 10 * n + (c.toNat - 48)) 0

/-- Python `str.strip`: drop leading and trailing whitespace (quiz.py line 102). -/
def str_strip (s : String) : String :=
  String.mk (((s.data.dropWhile Char.isWhitespace).reverse.dropWhile Char.isWhitespace).reverse)

/-- Category validation of `start_quiz` (quiz.py lines 100-106): a digit string
parses to a category id, a string that strips to empty means no category, and
anything else is the validation error (the script `st.error`s and returns). -/
def validate_category (category_input : String) : Except String (Option Nat) :=
  if str_isdigit category_input then
    Except.ok (some (str_toNat category_input))
  else if str_strip category_input = "" then
    Except.ok none
  else
    Except.error "Invalid category ID. Please enter a valid number or leave it blank for random."

/-- The difficulty selectbox options (quiz.py line 108). -/
inductive Difficulty where
  | Random
  | Easy
  | Medium
  | Hard
deriving DecidableEq

/-- Lowercasing of the selected difficulty, `Random` mapping to `None`
(quiz.py line 109). -/
def difficultyParam : Difficulty → Option String
  | .Random => none
  | .Easy => some "easy"
  | .Medium => some "medium"
  | .Hard => some "hard"

/-- Lookup in an association list keyed by question index; embeds reading the
dynamic key `f"all_answers_{i}"` / `f"selected_{i}"` from `st.session_state`.
Entries are prepended, so the first hit is the current binding. -/
def alookup {α : Type} : Nat → List (Nat × α) → Option α
  | _, [] => none
  | i, (k, v) :: rest => if i = k then some v else alookup i rest

/-- The `st.session_state` keys the script uses.  `quiz_data = none` embeds the
key being absent (`'quiz_data' in st.session_state` fails); `current_question`,
`score` and `quiz_finished` are only read after a start initialized them, so
they carry harmless defaults in the fresh state.  `selected` maps an index to
`none` (Python `None`, set on first render) or `some s` (a stored answer). -/
structure SessionState where
  quiz_data : Option (List Question)
  current_question : Nat
  score : Nat
  quiz_finished : Bool
  all_answers : List (Nat × List String)
  selected : List (Nat × Option String)
deriving DecidableEq

/-- A fresh Streamlit session: no keys set yet. -/
def initialState : SessionState :=
  { quiz_data := none, current_question := 0, score := 0, quiz_finished := false,
    all_answers := [], selected := [] }

/-- Per-render inputs of the presenter: the `random.shuffle` oracle (any
permutation-producing function; theorems assume `∀ l, (shuffle l).Perm l`),
the user's highlighted radio position, and whether "Submit Answer" was
clicked in this re-execution. -/
structure PresentInput where
  shuffle : List String → List String
  choiceIdx : Nat
  submitClicked : Bool

/-- Python `list.index` (quiz.py line 76): position of the first occurrence,
`none` when absent — the source raises `ValueError` there. -/
def list_index : List String → String → Option Nat
  | [], _ => none
  | a :: rest, x => if a = x then some 0 else (list_index rest x).map (· + 1)

/-- The `index=` argument of `st.radio` (quiz.py line 76): when the stored
selection is truthy, look its position up in the answer list (may fail),
otherwise default to position 0. -/
def radio_default_index (all_answers : List String) (stored : Option String) : Option Nat :=
  if pyTruthyOptStr stored then list_index all_answers (stored.getD "") else some 0

/-- The value `st.radio` returns: the option at the user's highlighted
position.  The widget always returns an element of the (non-empty) option
list; the position is embedded modulo the list length. -/
def radio_value (all_answers : List String) (choiceIdx : Nat) : String :=
  all_answers.getD (choiceIdx % all_answers.length) ""

/-- The answer list the presenter shows for question `q` at index `i` from
state `st`: the cached list when present, else the freshly shuffled
`incorrect_answers + [correct_answer]` (quiz.py lines 61-65). -/
def displayed_answers (q : Question) (i : Nat) (inp : PresentInput) (st : SessionState) :
    List String :=
  match alookup i st.all_answers with
  | some l => l
  | none => inp.shuffle (q.incorrect_answers ++ [q.correct_answer])

/-- Lines 61-63: store the freshly shuffled `incorrect + [correct]` under
`all_answers_{i}` when the key is absent. -/
def ensure_answers (q : Question) (i : Nat) (inp : PresentInput) (st : SessionState) :
    SessionState :=
  if (alookup i st.all_answers).isNone then
    { st with all_answers :=
        (i, inp.shuffle (q.incorrect_answers ++ [q.correct_answer])) :: st.all_answers }
  else st

/-- Lines 71-72: store `None` under `selected_{i}` when the key is absent. -/
def ensure_selected (i : Nat) (st : SessionState) : SessionState :=
  if (alookup i st.selected).isNone then
    { st with selected := (i, (none : Option String)) :: st.selected }
  else st

/-- `display_question` (quiz.py lines 44-90), one re-execution's pass over the
current question: ensure the shuffled answer cache for the index, ensure the
stored selection key, compute the radio default position (`none` = the
uncaught `ValueError` from `list.index`), and if Submit was clicked store the
highlighted choice, add 1 to the score exactly on string equality with the
correct answer, and advance `current_question` by 1.  Returns the new state
and the messages written this pass.  Line 65 rereads `all_answers_{i}` right
after `ensure_answers` stored it, which is exactly
`displayed_answers q i inp st` (lemma `alookup_ensure_answers`). -/
def display_question (question_data : Question) (question_idx : Nat) (inp : PresentInput)
    (st : SessionState) : Option (SessionState × List String) :=
  match radio_default_index (displayed_answers question_data question_idx inp st)
      ((alookup question_idx
          (ensure_selected question_idx
            (ensure_answers question_data question_idx inp st)).selected).getD none) with
  | none => none
  | some _ =>
    if inp.submitClicked then
      if radio_value (displayed_answers question_data question_idx inp st) inp.choiceIdx
          = question_data.correct_answer then
        some ({ ensure_selected question_idx (ensure_answers question_data question_idx inp st) with
                  selected := (question_idx,
                      some (radio_value (displayed_answers question_data question_idx inp st)
                        inp.choiceIdx))
                    :: (ensure_selected question_idx
                          (ensure_answers question_data question_idx inp st)).selected,
                  score := (ensure_selected question_idx
                    (ensure_answers question_data question_idx inp st)).score + 1,
                  current_question := (ensure_selected question_idx
                    (ensure_answers question_data question_idx inp st)).current_question + 1 },
              ["**Question " ++ toString (question_idx + 1) ++ ":** " ++ question_data.question,
               "Correct!"])
      else
        some ({ ensure_selected question_idx (ensure_answers question_data question_idx inp st) with
                  selected := (question_idx,
                      some (radio_value (displayed_answers question_data question_idx inp st)
                        inp.choiceIdx))
                    :: (ensure_selected question_idx
                          (ensure_answers question_data question_idx inp st)).selected,
                  current_question := (ensure_selected question_idx
                    (ensure_answers question_data question_idx inp st)).current_question + 1 },
              ["**Question " ++ toString (question_idx + 1) ++ ":** " ++ question_data.question,
               "Wrong! The correct answer was: " ++ question_data.correct_answer])
    else
      some (ensure_selected question_idx (ensure_answers question_data question_idx inp st),
            ["**Question " ++ toString (question_idx + 1) ++ ":** " ++ question_data.question])

/-- The Start-button block (quiz.py lines 114-123): when the button was
clicked, fetch; when the returned list is truthy (non-empty), reinitialize
`current_question`, `score`, `quiz_finished` and `quiz_data`; otherwise leave
the state as it is.  Returns the state and the fetch's error messages. -/
def handle_start (startClicked : Bool) (category : Option Nat) (difficulty : Option String)
    (question_count : Nat) (resp : HttpResp) (st : SessionState) :
    SessionState × List String :=
  if startClicked then
    let fetched := get_quiz_data category difficulty question_count resp
    if !fetched.2.isEmpty then
      ({ st with current_question := 0, score := 0, quiz_finished := false,
                 quiz_data := some fetched.2 }, fetched.1)
    else
      (st, fetched.1)
  else
    (st, [])

/-- The render phase (quiz.py lines 126-135): when a quiz exists and is not
finished, present the current question if its index is in range, else write
the summary line and set `quiz_finished`. -/
def render_phase (inp : PresentInput) (st : SessionState) : Option (SessionState × List String) :=
  match st.quiz_data with
  | none => some (st, [])
  | some qd =>
    if st.quiz_finished then
      some (st, [])
    else if h : st.current_question < qd.length then
      display_question (qd.get ⟨st.current_question, h⟩) st.current_question inp st
    else
      some ({ st with quiz_finished := true },
            ["### Quiz finished! Your final score is " ++ toString st.score ++ "/"
               ++ toString qd.length ++ "."])

/-- All inputs of one re-execution of the script: the widget values, whether
"Start Quiz" was clicked, the HTTP response the provider would give, and the
presenter inputs. -/
structure RunInput where
  category_input : String
  difficulty_sel : Difficulty
  question_count : Nat
  startClicked : Bool
  resp : HttpResp
  present : PresentInput

/-- One full top-to-bottom re-execution of `start_quiz` (quiz.py lines
92-135): validate the category input (on error, write the message and stop),
run the Start block, then the render phase.  `none` models the uncaught
`ValueError` of the presenter's `list.index`. -/
def start_quiz (inp : RunInput) (st : SessionState) : Option (SessionState × List String) :=
  match validate_category inp.category_input with
  | Except.error msg => some (st, [msg])
  | Except.ok category =>
    let difficulty := difficultyParam inp.difficulty_sel
    let started := handle_start inp.startClicked category difficulty inp.question_count inp.resp st
    match render_phase inp.present started.1 with
    | none => none
    | some (st2, msgs2) => some (st2, started.2 ++ msgs2)

/-- Session states reachable from a fresh session by re-executions of the
script. -/
inductive Reachable : SessionState → Prop where
  | init : Reachable initialState
  | step {st st' : SessionState} {inp : RunInput} {msgs : List String} :
      Reachable st → start_quiz inp st = some (st', msgs) → Reachable st'

/-- The state a submit pass produces (used to state `display_question_submit`). -/
def submit_result (q : Question) (i : Nat) (inp : PresentInput) (st : SessionState) :
    SessionState :=
  let st2 := ensure_selected i (ensure_answers q i inp st)
  let ans := radio_value (displayed_answers q i inp st) inp.choiceIdx
  { st2 with selected := (i, some ans) :: st2.selected,
             score := if ans = q.correct_answer then st2.score + 1 else st2.score,
             current_question := st2.current_question + 1 }

/-- Store invariant: every stored selection key has an answer cache entry at
the same index, and a truthy stored selection is an element of that cache. -/
def StoreInv (all : List (Nat × List String)) (sel : List (Nat × Option String)) : Prop :=
  ∀ i v, alookup i sel = some v →
    ∃ l, alookup i all = some l ∧ ∀ s, v = some s → s ≠ "" → s ∈ l

/-- Counter invariant: the score never exceeds the current index, and the
current index never exceeds the question count. -/
def CounterInv (st : SessionState) : Prop :=
  st.score ≤ st.current_question ∧
  ∀ qd, st.quiz_data = some qd → st.current_question ≤ qd.length

def SelInv (st : SessionState) : Prop := StoreInv st.all_answers st.selected

/-- Transcription of claim C9's words: the request URL always encodes
`amount=count`, includes `category=<id>` exactly when a category was set
(explicitly including a category validated from the input string "0"),
includes `difficulty` exactly when one was selected, and always appends
`type=multiple`. -/
def url_per_claim (category : Option Nat) (difficulty : Option String)
    (question_count : Nat) : String :=
  let url := "https://opentdb.com/api.php?" ++ "amount=" ++ toString question_count
  let url := match category with
    | some c => url ++ "&category=" ++ toString c
    | none => url
  let url := match difficulty with
    | some d => url ++ "&difficulty=" ++ d
    | none => url
  url ++ "&type=multiple"

/-- Claim C9 as amended: as `url_per_claim`, except that a category id of 0 is
omitted, exactly like an unset category (Python `if category:` is falsy at 0). -/
def url_per_amended (category : Option Nat) (difficulty : Option String)
    (question_count : Nat) : String :=
  let url := "https://opentdb.com/api.php?" ++ "amount=" ++ toString question_count
  let url := match category with
    | some c => if c = 0 then url else url ++ "&category=" ++ toString c
    | none => url
  let url := match difficulty with
    | some d => url ++ "&difficulty=" ++ d
    | none => url
  url ++ "&type=multiple"

/-! ### Concrete scenario data for witnesses and counterexamples -/

def exQ : Question := ⟨"2+2?", "4", ["3", "5", "6"]⟩

def exQ2 : Question := ⟨"Capital of France?", "Paris", ["Lyon", "Nice", "Lille"]⟩

def exResp1 : HttpResp := ⟨200, 0, [exQ]⟩

/-- A plain re-render: identity shuffle oracle, highlight at position 0, no
buttons clicked. -/
def exPresent : PresentInput := ⟨id, 0, false⟩

/-- Click "Start Quiz" with a successful one-question response. -/
def exStartInp : RunInput := ⟨"", Difficulty.Random, 1, true, exResp1, exPresent⟩

/-- The session right after `exStartInp` runs on a fresh session. -/
def exStarted : SessionState :=
  { quiz_data := some [exQ], current_question := 0, score := 0, quiz_finished := false,
    all_answers := [(0, ["3", "5", "6", "4"])], selected := [(0, none)] }

/-- Submit with the highlight on position 0 (the wrong answer "3"). -/
def exSubmitInp : PresentInput := ⟨id, 0, true⟩

def exSubmitRun : RunInput := ⟨"", Difficulty.Random, 1, false, exResp1, exSubmitInp⟩

/-- The transient session after submitting the only question: the index sits
at the question count but the finished flag is still false. -/
def exDone : SessionState :=
  { quiz_data := some [exQ], current_question := 1, score := 0, quiz_finished := false,
    all_answers := [(0, ["3", "5", "6", "4"])], selected := [(0, some "3"), (0, none)] }

/-- A re-render with no buttons clicked. -/
def exIdleRun : RunInput := ⟨"", Difficulty.Random, 1, false, exResp1, exPresent⟩

/-- The finished session the next render pass produces from `exDone`. -/
def exFinished : SessionState :=
  { quiz_data := some [exQ], current_question := 1, score := 0, quiz_finished := true,
    all_answers := [(0, ["3", "5", "6", "4"])], selected := [(0, some "3"), (0, none)] }

/-- Click "Start Quiz" while the provider is down (HTTP 500). -/
def exFailRun : RunInput := ⟨"", Difficulty.Random, 1, true, ⟨500, 0, []⟩, exPresent⟩

/-- Click "Start Quiz" again, now fetching a different question. -/
def exRestartInp : RunInput := ⟨"", Difficulty.Random, 1, true, ⟨200, 0, [exQ2]⟩, exPresent⟩

/-- The session after restarting from `exStarted` with `exQ2`: the question
list is new but the cached answer set at index 0 is still the old quiz's. -/
def exRestarted : SessionState :=
  { quiz_data := some [exQ2], current_question := 0, score := 0, quiz_finished := false,
    all_answers := [(0, ["3", "5", "6", "4"])], selected := [(0, none)] }

/-- The session after restarting from the finished session `exFinished`. -/
def exRestartedAfterFinish : SessionState :=
  { quiz_data := some [exQ], current_question := 0, score := 0, quiz_finished := false,
    all_answers := [(0, ["3", "5", "6", "4"])], selected := [(0, some "3"), (0, none)] }

/-- Whitespace-only category input together with a Start click. -/
def exWsInp : RunInput := ⟨" ", Difficulty.Random, 1, true, exResp1, exPresent⟩

/-- Non-numeric, non-blank category input together with a Start click. -/
def exBadInp : RunInput := ⟨"abc", Difficulty.Random, 1, true, exResp1, exPresent⟩

/-! ### Helper lemmas about the association-list store -/

@[simp]
theorem alookup_nil {α : Type} (i : Nat) : alookup i ([] : List (Nat × α)) = none := rfl

@[simp]
theorem alookup_cons {α : Type} (i k : Nat) (v : α) (rest : List (Nat × α)) :
    alookup i ((k, v) :: rest) = if i = k then some v else alookup i rest := rfl

/-! ### Helper lemmas about the presenter's primitives -/

theorem list_index_isSome_of_mem {l : List String} {s : String} (h : s ∈ l) :
    (list_index l s).isSome := by
  induction l with
  | nil => cases h
  | cons a rest ih =>
    by_cases ha : a = s
    · simp [list_index, ha]
    · rcases List.mem_cons.mp h with h | h
      · exact absurd h.symm ha
      · simpa [list_index, ha, Option.isSome_map] using ih h

theorem radio_value_empty (k : Nat) : radio_value [] k = "" := rfl

theorem radio_value_mem {l : List String} (k : Nat) (h : l ≠ []) : radio_value l k ∈ l := by
  have hlen : 0 < l.length := List.length_pos.mpr h
  have hk : k % l.length < l.length := Nat.mod_lt _ hlen
  simp [radio_value, List.getD, List.getElem?_eq_getElem hk]

@[simp]
theorem ensure_answers_quiz_data (q : Question) (i : Nat) (inp : PresentInput)
    (st : SessionState) : (ensure_answers q i inp st).quiz_data = st.quiz_data := by
  unfold ensure_answers; split <;> rfl

@[simp]
theorem ensure_answers_current (q : Question) (i : Nat) (inp : PresentInput)
    (st : SessionState) : (ensure_answers q i inp st).current_question = st.current_question := by
  unfold ensure_answers; split <;> rfl

@[simp]
theorem ensure_answers_score (q : Question) (i : Nat) (inp : PresentInput)
    (st : SessionState) : (ensure_answers q i inp st).score = st.score := by
  unfold ensure_answers; split <;> rfl

@[simp]
theorem ensure_answers_finished (q : Question) (i : Nat) (inp : PresentInput)
    (st : SessionState) : (ensure_answers q i inp st).quiz_finished = st.quiz_finished := by
  unfold ensure_answers; split <;> rfl

@[simp]
theorem ensure_answers_selected (q : Question) (i : Nat) (inp : PresentInput)
    (st : SessionState) : (ensure_answers q i inp st).selected = st.selected := by
  unfold ensure_answers; split <;> rfl

@[simp]
theorem ensure_selected_quiz_data (i : Nat) (st : SessionState) :
    (ensure_selected i st).quiz_data = st.quiz_data := by
  unfold ensure_selected; split <;> rfl

@[simp]
theorem ensure_selected_current (i : Nat) (st : SessionState) :
    (ensure_selected i st).current_question = st.current_question := by
  unfold ensure_selected; split <;> rfl

@[simp]
theorem ensure_selected_score (i : Nat) (st : SessionState) :
    (ensure_selected i st).score = st.score := by
  unfold ensure_selected; split <;> rfl

@[simp]
theorem ensure_selected_finished (i : Nat) (st : SessionState) :
    (ensure_selected i st).quiz_finished = st.quiz_finished := by
  unfold ensure_selected; split <;> rfl

@[simp]
theorem ensure_selected_all_answers (i : Nat) (st : SessionState) :
    (ensure_selected i st).all_answers = st.all_answers := by
  unfold ensure_selected; split <;> rfl

theorem alookup_ensure_answers (q : Question) (i : Nat) (inp : PresentInput)
    (st : SessionState) :
    alookup i (ensure_answers q i inp st).all_answers = some (displayed_answers q i inp st) := by
  unfold ensure_answers displayed_answers
  cases h : alookup i st.all_answers <;> simp [h]

theorem stored_ensure_selected (i : Nat) (st : SessionState) :
    (alookup i (ensure_selected i st).selected).getD none
      = (alookup i st.selected).getD none := by
  unfold ensure_selected
  cases h : alookup i st.selected <;> simp [h]

/-! ### Characterization of the presenter pass -/

theorem display_question_submit {q : Question} {i : Nat} {inp : PresentInput}
    {st st' : SessionState} {msgs : List String}
    (hsub : inp.submitClicked = true)
    (h : display_question q i inp st = some (st', msgs)) :
    st' = submit_result q i inp st := by
  unfold display_question at h
  split at h
  · exact Option.noConfusion h
  · simp only [hsub, if_true] at h
    split at h <;> rename_i hc <;>
      (rw [Option.some.injEq, Prod.mk.injEq] at h
       simp [submit_result, hc, ← h.1])

theorem display_question_nosubmit {q : Question} {i : Nat} {inp : PresentInput}
    {st st' : SessionState} {msgs : List String}
    (hsub : inp.submitClicked = false)
    (h : display_question q i inp st = some (st', msgs)) :
    st' = ensure_selected i (ensure_answers q i inp st) := by
  unfold display_question at h
  split at h
  · exact Option.noConfusion h
  · simp only [hsub, Bool.false_eq_true, if_false] at h
    rw [Option.some.injEq, Prod.mk.injEq] at h
    exact h.1.symm

theorem display_question_eq_none_iff {q : Question} {i : Nat} {inp : PresentInput}
    {st : SessionState} :
    display_question q i inp st = none ↔
      radio_default_index (displayed_answers q i inp st)
        ((alookup i st.selected).getD none) = none := by
  unfold display_question
  rw [stored_ensure_selected, ensure_answers_selected]
  cases hm : radio_default_index (displayed_answers q i inp st)
      ((alookup i st.selected).getD none) with
  | none => simp
  | some k =>
    simp only
    constructor
    · intro hc
      split at hc
      · split at hc <;> exact Option.noConfusion hc
      · exact Option.noConfusion hc
    · intro hc
      exact Option.noConfusion hc

@[simp]
theorem submit_result_quiz_data (q : Question) (i : Nat) (inp : PresentInput)
    (st : SessionState) : (submit_result q i inp st).quiz_data = st.quiz_data := by
  simp [submit_result]

@[simp]
theorem submit_result_finished (q : Question) (i : Nat) (inp : PresentInput)
    (st : SessionState) : (submit_result q i inp st).quiz_finished = st.quiz_finished := by
  simp [submit_result]

@[simp]
theorem submit_result_current (q : Question) (i : Nat) (inp : PresentInput)
    (st : SessionState) :
    (submit_result q i inp st).current_question = st.current_question + 1 := by
  simp [submit_result]

@[simp]
theorem submit_result_score (q : Question) (i : Nat) (inp : PresentInput)
    (st : SessionState) :
    (submit_result q i inp st).score
      = (if radio_value (displayed_answers q i inp st) inp.choiceIdx = q.correct_answer
         then st.score + 1 else st.score) := by
  simp [submit_result]

@[simp]
theorem submit_result_all_answers (q : Question) (i : Nat) (inp : PresentInput)
    (st : SessionState) :
    (submit_result q i inp st).all_answers = (ensure_answers q i inp st).all_answers := by
  simp [submit_result]

@[simp]
theorem submit_result_selected (q : Question) (i : Nat) (inp : PresentInput)
    (st : SessionState) :
    (submit_result q i inp st).selected
      = (i, some (radio_value (displayed_answers q i inp st) inp.choiceIdx))
          :: (ensure_selected i (ensure_answers q i inp st)).selected := by
  simp [submit_result]

/-- Everything a presenter pass can do to the session, in both the submit and
the plain re-render case. -/
theorem display_question_changes {q : Question} {i : Nat} {inp : PresentInput}
    {st st' : SessionState} {msgs : List String}
    (h : display_question q i inp st = some (st', msgs)) :
    st'.quiz_data = st.quiz_data ∧
    st'.quiz_finished = st.quiz_finished ∧
    st'.all_answers = (ensure_answers q i inp st).all_answers ∧
    ((inp.submitClicked = false ∧
        st'.current_question = st.current_question ∧ st'.score = st.score ∧
        st'.selected = (ensure_selected i (ensure_answers q i inp st)).selected) ∨
     (inp.submitClicked = true ∧
        st'.current_question = st.current_question + 1 ∧
        (st'.score = st.score ∨ st'.score = st.score + 1) ∧
        st'.selected
          = (i, some (radio_value (displayed_answers q i inp st) inp.choiceIdx))
              :: (ensure_selected i (ensure_answers q i inp st)).selected)) := by
  cases hb : inp.submitClicked
  · have hst := display_question_nosubmit hb h
    subst hst
    simp
  · have hst := display_question_submit hb h
    subst hst
    refine ⟨by simp, by simp, by simp, Or.inr ⟨rfl, by simp, ?_, by simp⟩⟩
    by_cases hc : radio_value (displayed_answers q i inp st) inp.choiceIdx = q.correct_answer
    · exact Or.inr (by simp [hc])
    · exact Or.inl (by simp [hc])

/-- The answer store either is untouched or gains exactly the fresh shuffle for
an index that had no entry. -/
theorem ensure_answers_cases (q : Question) (i : Nat) (inp : PresentInput)
    (st : SessionState) :
    (ensure_answers q i inp st).all_answers = st.all_answers ∨
    (alookup i st.all_answers = none ∧
      (ensure_answers q i inp st).all_answers
        = (i, inp.shuffle (q.incorrect_answers ++ [q.correct_answer])) :: st.all_answers) := by
  unfold ensure_answers
  cases h : alookup i st.all_answers with
  | none => exact Or.inr ⟨rfl, by simp [h]⟩
  | some l => exact Or.inl (by simp [h])

theorem ensure_selected_cases (i : Nat) (st : SessionState) :
    (ensure_selected i st).selected = st.selected ∨
    (alookup i st.selected = none ∧
      (ensure_selected i st).selected = (i, (none : Option String)) :: st.selected) := by
  unfold ensure_selected
  cases h : alookup i st.selected with
  | none => exact Or.inr ⟨rfl, by simp [h]⟩
  | some l => exact Or.inl (by simp [h])

/-- Existing cache entries survive `ensure_answers` with the same value. -/
theorem alookup_ensure_answers_of_some {q : Question} {i j : Nat} {inp : PresentInput}
    {st : SessionState} {l : List String}
    (h : alookup j st.all_answers = some l) :
    alookup j (ensure_answers q i inp st).all_answers = some l := by
  rcases ensure_answers_cases q i inp st with hc | ⟨hnone, hc⟩
  · rw [hc]; exact h
  · rw [hc]
    by_cases hij : j = i
    · rw [hij] at h
      rw [h] at hnone
      exact Option.noConfusion hnone
    · simp [hij, h]

/-! ### Characterization of the controller -/

theorem handle_start_not_clicked (category : Option Nat) (difficulty : Option String)
    (question_count : Nat) (resp : HttpResp) (st : SessionState) :
    handle_start false category difficulty question_count resp st = (st, []) := rfl

theorem get_quiz_data_transport {resp : HttpResp} (category : Option Nat)
    (difficulty : Option String) (question_count : Nat)
    (hs : resp.status_code ≠ 200) :
    get_quiz_data category difficulty question_count resp
      = (["Failed to retrieve questions. Please try again later."], []) := by
  simp [get_quiz_data, hs]

theorem get_quiz_data_noresults {resp : HttpResp} (category : Option Nat)
    (difficulty : Option String) (question_count : Nat)
    (hs : resp.status_code = 200) (hc : resp.response_code ≠ 0) :
    get_quiz_data category difficulty question_count resp
      = (["No questions found for the selected options."], []) := by
  simp [get_quiz_data, hs, hc]

theorem get_quiz_data_success {resp : HttpResp} (category : Option Nat)
    (difficulty : Option String) (question_count : Nat)
    (hs : resp.status_code = 200) (hc : resp.response_code = 0) :
    get_quiz_data category difficulty question_count resp = ([], resp.results) := by
  simp [get_quiz_data, hs, hc]

theorem handle_start_failed_fst {category : Option Nat} {difficulty : Option String}
    {question_count : Nat} {resp : HttpResp}
    (hfail : (get_quiz_data category difficulty question_count resp).2 = [])
    (st : SessionState) :
    (handle_start true category difficulty question_count resp st).1 = st := by
  unfold handle_start
  simp [hfail]

theorem handle_start_failed_snd {category : Option Nat} {difficulty : Option String}
    {question_count : Nat} {resp : HttpResp}
    (hfail : (get_quiz_data category difficulty question_count resp).2 = [])
    (st : SessionState) :
    (handle_start true category difficulty question_count resp st).2
      = (get_quiz_data category difficulty question_count resp).1 := by
  unfold handle_start
  simp [hfail]

theorem handle_start_success_fst {category : Option Nat} {difficulty : Option String}
    {question_count : Nat} {resp : HttpResp}
    (hok : (get_quiz_data category difficulty question_count resp).2 ≠ [])
    (st : SessionState) :
    (handle_start true category difficulty question_count resp st).1
      = { st with current_question := 0, score := 0, quiz_finished := false,
                  quiz_data := some (get_quiz_data category difficulty question_count resp).2 } := by
  unfold handle_start
  simp [List.isEmpty_iff, hok]

theorem handle_start_success_snd {category : Option Nat} {difficulty : Option String}
    {question_count : Nat} {resp : HttpResp}
    (hok : (get_quiz_data category difficulty question_count resp).2 ≠ [])
    (st : SessionState) :
    (handle_start true category difficulty question_count resp st).2
      = (get_quiz_data category difficulty question_count resp).1 := by
  unfold handle_start
  simp [List.isEmpty_iff, hok]

theorem start_quiz_invalid {inp : RunInput} {msg : String}
    (hv : validate_category inp.category_input = Except.error msg) (st : SessionState) :
    start_quiz inp st = some (st, [msg]) := by
  unfold start_quiz
  rw [hv]

theorem start_quiz_valid {inp : RunInput} {cat : Option Nat}
    (hv : validate_category inp.category_input = Except.ok cat) (st : SessionState) :
    start_quiz inp st
      = (match render_phase inp.present
            (handle_start inp.startClicked cat (difficultyParam inp.difficulty_sel)
              inp.question_count inp.resp st).1 with
         | none => none
         | some (st2, msgs2) =>
            some (st2, (handle_start inp.startClicked cat (difficultyParam inp.difficulty_sel)
              inp.question_count inp.resp st).2 ++ msgs2)) := by
  unfold start_quiz
  rw [hv]

theorem render_phase_no_quiz {st : SessionState} (inp : PresentInput)
    (h : st.quiz_data = none) : render_phase inp st = some (st, []) := by
  unfold render_phase
  rw [h]

theorem render_phase_finished {st : SessionState} {qd : List Question} (inp : PresentInput)
    (h : st.quiz_data = some qd) (hf : st.quiz_finished = true) :
    render_phase inp st = some (st, []) := by
  unfold render_phase
  rw [h]
  simp [hf]

theorem render_phase_present {st : SessionState} {qd : List Question} (inp : PresentInput)
    (h : st.quiz_data = some qd) (hf : st.quiz_finished = false)
    (hlt : st.current_question < qd.length) :
    render_phase inp st
      = display_question (qd.get ⟨st.current_question, hlt⟩) st.current_question inp st := by
  unfold render_phase
  rw [h]
  simp [hf, hlt]

theorem render_phase_summary {st : SessionState} {qd : List Question} (inp : PresentInput)
    (h : st.quiz_data = some qd) (hf : st.quiz_finished = false)
    (hge : ¬ st.current_question < qd.length) :
    render_phase inp st
      = some ({ st with quiz_finished := true },
          ["### Quiz finished! Your final score is " ++ toString st.score ++ "/"
             ++ toString qd.length ++ "."]) := by
  unfold render_phase
  rw [h]
  simp [hf, hge]

/-- The Start block either leaves the state alone or performs the full
(re)initialization with a non-empty fetched list. -/
theorem handle_start_cases (startClicked : Bool) (category : Option Nat)
    (difficulty : Option String) (question_count : Nat) (resp : HttpResp)
    (st : SessionState) :
    (handle_start startClicked category difficulty question_count resp st).1 = st ∨
    (startClicked = true ∧
      (get_quiz_data category difficulty question_count resp).2 ≠ [] ∧
      (handle_start startClicked category difficulty question_count resp st).1
        = { st with current_question := 0, score := 0, quiz_finished := false,
                    quiz_data := some (get_quiz_data category difficulty question_count resp).2 }) := by
  cases startClicked with
  | false => exact Or.inl rfl
  | true =>
    unfold handle_start
    by_cases he : (get_quiz_data category difficulty question_count resp).2 = []
    · exact Or.inl (by simp [he])
    · exact Or.inr ⟨rfl, he, by simp [List.isEmpty_iff, he]⟩

/-- The Start block never touches the cached answer sets or selections. -/
theorem handle_start_preserves_store (startClicked : Bool) (category : Option Nat)
    (difficulty : Option String) (question_count : Nat) (resp : HttpResp)
    (st : SessionState) :
    (handle_start startClicked category difficulty question_count resp st).1.all_answers
        = st.all_answers ∧
    (handle_start startClicked category difficulty question_count resp st).1.selected
        = st.selected := by
  rcases handle_start_cases startClicked category difficulty question_count resp st with
    hc | ⟨_, _, hc⟩ <;> rw [hc] <;> exact ⟨rfl, rfl⟩

/-- Master case analysis of one successful re-execution: either the category
input was rejected (state unchanged), or the Start block produced `st1` (the
old state, or a full reinitialization from a non-empty fetch), after which the
render phase either left `st1` alone, ran a presenter pass on the current
question, or wrote the summary and set the finished flag. -/
theorem start_quiz_step_cases {inp : RunInput} {st st' : SessionState} {msgs : List String}
    (h : start_quiz inp st = some (st', msgs)) :
    st' = st ∨
    ∃ (cat : Option Nat) (st1 : SessionState),
      validate_category inp.category_input = Except.ok cat ∧
      (st1 = st ∨
        (inp.startClicked = true ∧
          (get_quiz_data cat (difficultyParam inp.difficulty_sel)
             inp.question_count inp.resp).2 ≠ [] ∧
          st1 = { st with current_question := 0, score := 0, quiz_finished := false,
                          quiz_data := some (get_quiz_data cat
                            (difficultyParam inp.difficulty_sel)
                            inp.question_count inp.resp).2 })) ∧
      (st' = st1 ∨
        (∃ (qd : List Question) (hlt : st1.current_question < qd.length) (msgs2 : List String),
          st1.quiz_data = some qd ∧ st1.quiz_finished = false ∧
          display_question (qd.get ⟨st1.current_question, hlt⟩) st1.current_question
            inp.present st1 = some (st', msgs2)) ∨
        (∃ qd : List Question, st1.quiz_data = some qd ∧ st1.quiz_finished = false ∧
          ¬ st1.current_question < qd.length ∧ st' = { st1 with quiz_finished := true })) := by
  cases hv : validate_category inp.category_input with
  | error msg =>
    have h2 := (start_quiz_invalid hv st).symm.trans h
    rw [Option.some.injEq, Prod.mk.injEq] at h2
    exact Or.inl h2.1.symm
  | ok cat =>
    have h2 := (start_quiz_valid hv st).symm.trans h
    refine Or.inr ⟨cat, (handle_start inp.startClicked cat (difficultyParam inp.difficulty_sel)
      inp.question_count inp.resp st).1, rfl,
      handle_start_cases inp.startClicked cat (difficultyParam inp.difficulty_sel)
        inp.question_count inp.resp st, ?_⟩
    cases hr : render_phase inp.present
        (handle_start inp.startClicked cat (difficultyParam inp.difficulty_sel)
          inp.question_count inp.resp st).1 with
    | none => rw [hr] at h2; exact Option.noConfusion h2
    | some p =>
      obtain ⟨st2, msgs2⟩ := p
      rw [hr] at h2
      rw [Option.some.injEq, Prod.mk.injEq] at h2
      obtain ⟨hst2, -⟩ := h2
      subst hst2
      cases hqd : (handle_start inp.startClicked cat (difficultyParam inp.difficulty_sel)
          inp.question_count inp.resp st).1.quiz_data with
      | none =>
        have := (render_phase_no_quiz inp.present hqd).symm.trans hr
        rw [Option.some.injEq, Prod.mk.injEq] at this
        exact Or.inl this.1.symm
      | some qd =>
        cases hf : (handle_start inp.startClicked cat (difficultyParam inp.difficulty_sel)
            inp.question_count inp.resp st).1.quiz_finished with
        | true =>
          have := (render_phase_finished inp.present hqd hf).symm.trans hr
          rw [Option.some.injEq, Prod.mk.injEq] at this
          exact Or.inl this.1.symm
        | false =>
          by_cases hlt : (handle_start inp.startClicked cat (difficultyParam inp.difficulty_sel)
              inp.question_count inp.resp st).1.current_question < qd.length
          · have hs := (render_phase_present inp.present hqd hf hlt).symm.trans hr
            exact Or.inr (Or.inl ⟨qd, hlt, msgs2, rfl, rfl, hs⟩)
          · have hs := (render_phase_summary inp.present hqd hf hlt).symm.trans hr
            rw [Option.some.injEq, Prod.mk.injEq] at hs
            exact Or.inr (Or.inr ⟨qd, rfl, rfl, hlt, by rw [hqd] at hs; exact hs.1.symm⟩)

/-- A crashing re-execution (`none`) can only come from the presenter's
`list.index` call on the current question. -/
theorem start_quiz_eq_none_cases {inp : RunInput} {st : SessionState}
    (h : start_quiz inp st = none) :
    ∃ (cat : Option Nat) (st1 : SessionState) (qd : List Question)
      (hlt : st1.current_question < qd.length),
      validate_category inp.category_input = Except.ok cat ∧
      st1.all_answers = st.all_answers ∧ st1.selected = st.selected ∧
      st1.quiz_data = some qd ∧ st1.quiz_finished = false ∧
      display_question (qd.get ⟨st1.current_question, hlt⟩) st1.current_question
        inp.present st1 = none := by
  cases hv : validate_category inp.category_input with
  | error msg =>
    have h2 := (start_quiz_invalid hv st).symm.trans h
    exact Option.noConfusion h2
  | ok cat =>
    have h2 := (start_quiz_valid hv st).symm.trans h
    cases hr : render_phase inp.present
        (handle_start inp.startClicked cat (difficultyParam inp.difficulty_sel)
          inp.question_count inp.resp st).1 with
    | some p => rw [hr] at h2; exact Option.noConfusion h2
    | none =>
      cases hqd : (handle_start inp.startClicked cat (difficultyParam inp.difficulty_sel)
          inp.question_count inp.resp st).1.quiz_data with
      | none =>
        have := (render_phase_no_quiz inp.present hqd).symm.trans hr
        exact Option.noConfusion this
      | some qd =>
        cases hf : (handle_start inp.startClicked cat (difficultyParam inp.difficulty_sel)
            inp.question_count inp.resp st).1.quiz_finished with
        | true =>
          have := (render_phase_finished inp.present hqd hf).symm.trans hr
          exact Option.noConfusion this
        | false =>
          by_cases hlt : (handle_start inp.startClicked cat (difficultyParam inp.difficulty_sel)
              inp.question_count inp.resp st).1.current_question < qd.length
          · have hd := (render_phase_present inp.present hqd hf hlt).symm.trans hr
            exact ⟨cat, _, qd, hlt, rfl,
              (handle_start_preserves_store _ _ _ _ _ _).1,
              (handle_start_preserves_store _ _ _ _ _ _).2, hqd, hf, hd⟩
          · have := (render_phase_summary inp.present hqd hf hlt).symm.trans hr
            exact Option.noConfusion this

/-- A failing radio default lookup means a truthy stored selection absent from
the shown answer list. -/
theorem radio_default_index_eq_none {all : List String} {stored : Option String}
    (h : radio_default_index all stored = none) :
    ∃ s, stored = some s ∧ s ≠ "" ∧ list_index all s = none := by
  unfold radio_default_index at h
  split at h <;> rename_i ht
  · cases stored with
    | none => simp [pyTruthyOptStr] at ht
    | some s =>
      refine ⟨s, rfl, ?_, ?_⟩
      · simpa [pyTruthyOptStr] using ht
      · simpa using h
  · exact Option.noConfusion h

/-! ### The session invariants -/

theorem counterInv_initial : CounterInv initialState :=
  ⟨Nat.le_refl 0, fun _ h => Option.noConfusion h⟩

theorem selInv_initial : SelInv initialState := by
  intro i v h
  exact Option.noConfusion h

theorem storeInv_ensure_answers {q : Question} {i : Nat} {inp : PresentInput}
    {st : SessionState} (hI : StoreInv st.all_answers st.selected) :
    StoreInv (ensure_answers q i inp st).all_answers st.selected := by
  intro j v hv
  obtain ⟨l, hl, hmem⟩ := hI j v hv
  exact ⟨l, alookup_ensure_answers_of_some hl, hmem⟩

theorem storeInv_ensure_selected {q : Question} {i : Nat} {inp : PresentInput}
    {st : SessionState} (hI : StoreInv st.all_answers st.selected) :
    StoreInv (ensure_answers q i inp st).all_answers
      (ensure_selected i (ensure_answers q i inp st)).selected := by
  rcases ensure_selected_cases i (ensure_answers q i inp st) with hc | ⟨-, hc⟩ <;>
      rw [hc, ensure_answers_selected]
  · exact storeInv_ensure_answers hI
  · intro j v hv
    rw [alookup_cons] at hv
    by_cases hij : j = i
    · rw [if_pos hij] at hv
      rw [Option.some.injEq] at hv
      refine ⟨displayed_answers q i inp st, hij ▸ alookup_ensure_answers q i inp st, ?_⟩
      intro s hs
      rw [← hv] at hs
      exact Option.noConfusion hs
    · rw [if_neg hij] at hv
      exact storeInv_ensure_answers hI j v hv

theorem storeInv_submit {q : Question} {i : Nat} {inp : PresentInput}
    {st : SessionState} (hI : StoreInv st.all_answers st.selected) :
    StoreInv (ensure_answers q i inp st).all_answers
      ((i, some (radio_value (displayed_answers q i inp st) inp.choiceIdx))
        :: (ensure_selected i (ensure_answers q i inp st)).selected) := by
  intro j v hv
  rw [alookup_cons] at hv
  by_cases hij : j = i
  · rw [if_pos hij] at hv
    rw [Option.some.injEq] at hv
    refine ⟨displayed_answers q i inp st, hij ▸ alookup_ensure_answers q i inp st, ?_⟩
    intro s hs hne
    rw [← hv] at hs
    rw [Option.some.injEq] at hs
    cases hl : displayed_answers q i inp st with
    | nil =>
      rw [hl] at hs
      rw [radio_value_empty] at hs
      exact absurd hs.symm hne
    | cons a rest =>
      rw [← hs, hl]
      exact hl ▸ radio_value_mem inp.choiceIdx (by simp [hl])
  · rw [if_neg hij] at hv
    exact storeInv_ensure_selected hI j v hv

/-- One successful re-execution preserves both invariants. -/
theorem inv_step {inp : RunInput} {st st' : SessionState} {msgs : List String}
    (h : start_quiz inp st = some (st', msgs))
    (hI : CounterInv st ∧ SelInv st) : CounterInv st' ∧ SelInv st' := by
  rcases start_quiz_step_cases h with hEq | ⟨cat, st1, hv, hstart, hrender⟩
  · rw [hEq]; exact hI
  · have hI1 : CounterInv st1 ∧ SelInv st1 := by
      rcases hstart with rfl | ⟨-, -, rfl⟩
      · exact hI
      · exact ⟨⟨Nat.le_refl 0, fun _ _ => Nat.zero_le _⟩, hI.2⟩
    rcases hrender with rfl | ⟨qd, hlt, msgs2, hqd, hf, hd⟩ | ⟨qd, hqd, hf, hge, rfl⟩
    · exact hI1
    · obtain ⟨hqd', -, hall, hcases⟩ := display_question_changes hd
      constructor
      · constructor
        · rcases hcases with ⟨-, hcur, hsc, -⟩ | ⟨-, hcur, hsc, -⟩
          · rw [hcur, hsc]; exact hI1.1.1
          · rw [hcur]
            have hb := hI1.1.1
            rcases hsc with h1 | h1 <;> rw [h1] <;> omega
        · intro qd' hq'
          rw [hqd', hqd, Option.some.injEq] at hq'
          subst hq'
          rcases hcases with ⟨-, hcur, -, -⟩ | ⟨-, hcur, -, -⟩
          · rw [hcur]; exact Nat.le_of_lt hlt
          · rw [hcur]; exact hlt
      · show StoreInv st'.all_answers st'.selected
        rw [hall]
        rcases hcases with ⟨-, -, -, hsel⟩ | ⟨-, -, -, hsel⟩ <;> rw [hsel]
        · exact storeInv_ensure_selected hI1.2
        · exact storeInv_submit hI1.2
    · exact ⟨⟨hI1.1.1, fun qd' hq' => by
        rw [show ({ st1 with quiz_finished := true } : SessionState).quiz_data
              = st1.quiz_data from rfl, hqd, Option.some.injEq] at hq'
        exact hq' ▸ hI1.1.2 qd hqd⟩, hI1.2⟩

/-- Every reachable session state satisfies both invariants. -/
theorem reachable_inv {st : SessionState} (h : Reachable st) :
    CounterInv st ∧ SelInv st := by
  induction h with
  | init => exact ⟨counterInv_initial, selInv_initial⟩
  | step _ hstep ih => exact inv_step hstep ih

/-- With the store invariant, a re-execution can never hit the `ValueError`
of the presenter's `list.index` call. -/
theorem no_crash_of_selInv {inp : RunInput} {st : SessionState} (hI : SelInv st) :
    start_quiz inp st ≠ none := by
  intro h
  obtain ⟨cat, st1, qd, hlt, hv, hall, hsel, hqd, hf, hd⟩ := start_quiz_eq_none_cases h
  rw [display_question_eq_none_iff] at hd
  obtain ⟨s, hst, hne, hidx⟩ := radio_default_index_eq_none hd
  have hlk : alookup st1.current_question st1.selected = some (some s) := by
    cases hl : alookup st1.current_question st1.selected with
    | none => rw [hl] at hst; exact Option.noConfusion hst
    | some v => rw [hl] at hst; rw [Option.getD_some] at hst; rw [hst]
  rw [hsel] at hlk
  obtain ⟨l, hcache, hmem⟩ := hI _ _ hlk
  have hdisp : displayed_answers (qd.get ⟨st1.current_question, hlt⟩)
      st1.current_question inp.present st1 = l := by
    unfold displayed_answers
    rw [hall, hcache]
  rw [hdisp] at hidx
  have hsome := list_index_isSome_of_mem (hmem s rfl hne)
  rw [hidx] at hsome
  exact Bool.noConfusion hsome

theorem handle_start_not_clicked_fst (category : Option Nat) (difficulty : Option String)
    (question_count : Nat) (resp : HttpResp) (st : SessionState) :
    (handle_start false category difficulty question_count resp st).1 = st := rfl

theorem get_quiz_data_empty {resp : HttpResp} (category : Option Nat)
    (difficulty : Option String) (question_count : Nat)
    (hfail : resp.status_code ≠ 200 ∨ resp.response_code ≠ 0 ∨ resp.results = []) :
    (get_quiz_data category difficulty question_count resp).2 = [] := by
  by_cases hs : resp.status_code = 200
  · by_cases hc : resp.response_code = 0
    · rcases hfail with hx | hx | hx
      · exact absurd hs hx
      · exact absurd hc hx
      · rw [get_quiz_data_success category difficulty question_count hs hc]
        exact hx
    · rw [get_quiz_data_noresults category difficulty question_count hs hc]
  · rw [get_quiz_data_transport category difficulty question_count hs]

theorem get_quiz_data_nonempty {category : Option Nat} {difficulty : Option String}
    {question_count : Nat} {resp : HttpResp}
    (h : (get_quiz_data category difficulty question_count resp).2 ≠ []) :
    resp.status_code = 200 ∧ resp.response_code = 0 ∧
      (get_quiz_data category difficulty question_count resp).2 = resp.results := by
  by_cases hs : resp.status_code = 200
  · by_cases hc : resp.response_code = 0
    · exact ⟨hs, hc, by rw [get_quiz_data_success category difficulty question_count hs hc]⟩
    · exact absurd (by rw [get_quiz_data_noresults category difficulty question_count hs hc]) h
  · exact absurd (by rw [get_quiz_data_transport category difficulty question_count hs]) h

/-- Without a Start click, a re-execution with valid category input is exactly
the render phase. -/
theorem start_quiz_no_start {inp : RunInput} {cat : Option Nat}
    (hv : validate_category inp.category_input = Except.ok cat)
    (hns : inp.startClicked = false) (st : SessionState) :
    start_quiz inp st = render_phase inp.present st := by
  unfold start_quiz
  rw [hv, hns]
  unfold handle_start
  simp only [Bool.false_eq_true, if_false]
  cases hr : render_phase inp.present st with
  | none => rfl
  | some p => obtain ⟨st2, m2⟩ := p; simp

theorem string_mk_append (a b : List Char) :
    String.mk a ++ String.mk b = String.mk (a ++ b) := rfl

theorem string_append_assoc (a b c : String) : a ++ b ++ c = a ++ (b ++ c) := by
  obtain ⟨la⟩ := a
  obtain ⟨lb⟩ := b
  obtain ⟨lc⟩ := c
  rw [string_mk_append, string_mk_append, string_mk_append, string_mk_append,
    List.append_assoc]

/-- The rendered summary string is the literal markdown heading prefix `### `
followed by the summary line the specification quotes. -/
theorem summary_message_split (x y : String) :
    "### Quiz finished! Your final score is " ++ x ++ "/" ++ y ++ "."
      = "### " ++ ("Quiz finished! Your final score is " ++ x ++ "/" ++ y ++ ".") := by
  have hsplit : ("### Quiz finished! Your final score is " : String)
      = "### " ++ "Quiz finished! Your final score is " := by decide
  simp only [string_append_assoc]
  rw [hsplit, string_append_assoc]

/-! ### Claim C1 -/

/-- C1: For every submission on question index `i`, the stored selection
`selected[i]` is set to the currently highlighted choice (the value the radio
widget returns); the score is incremented by exactly 1 if that choice is
string-equal — case-sensitive, no normalization — to the question's correct
answer, and is unchanged otherwise; and `current_question` is advanced by
exactly 1 unconditionally (quiz.py lines 80-90). -/
theorem C1_submission_records_scores_advances
    (q : Question) (i : Nat) (inp : PresentInput) (st st' : SessionState) (msgs : List String)
    (hsub : inp.submitClicked = true)
    (h : display_question q i inp st = some (st', msgs)) :
    alookup i st'.selected
        = some (some (radio_value (displayed_answers q i inp st) inp.choiceIdx)) ∧
    (radio_value (displayed_answers q i inp st) inp.choiceIdx = q.correct_answer →
        st'.score = st.score + 1) ∧
    (radio_value (displayed_answers q i inp st) inp.choiceIdx ≠ q.correct_answer →
        st'.score = st.score) ∧
    st'.current_question = st.current_question + 1 := by
  have hst := display_question_submit hsub h
  subst hst
  exact ⟨by simp, fun hc => by simp [hc], fun hc => by simp [hc], by simp⟩

theorem C1_witness :
    exSubmitInp.submitClicked = true ∧
    display_question exQ 0 exSubmitInp exStarted
        = some (exDone, ["**Question 1:** 2+2?", "Wrong! The correct answer was: 4"]) ∧
    (alookup 0 exDone.selected
        = some (some (radio_value (displayed_answers exQ 0 exSubmitInp exStarted)
            exSubmitInp.choiceIdx)) ∧
     (radio_value (displayed_answers exQ 0 exSubmitInp exStarted) exSubmitInp.choiceIdx
        = exQ.correct_answer → exDone.score = exStarted.score + 1) ∧
     (radio_value (displayed_answers exQ 0 exSubmitInp exStarted) exSubmitInp.choiceIdx
        ≠ exQ.correct_answer → exDone.score = exStarted.score) ∧
     exDone.current_question = exStarted.current_question + 1) :=
  ⟨rfl, rfl,
   C1_submission_records_scores_advances exQ 0 exSubmitInp exStarted exDone
     ["**Question 1:** 2+2?", "Wrong! The correct answer was: 4"] rfl rfl⟩

/-! ### Claim C3 -/

/-- C3: Every Start click whose fetch returns a non-empty question list leaves
the session, at the end of that re-execution, with `current_question = 0`,
`score = 0`, `quiz_finished = false` and `quiz_data` equal to the fetched list
(quiz.py lines 114-123).  The hypotheses state that the category input
validates (otherwise the script stops before the Start block) and that the
Submit button was not clicked in the same re-execution (Streamlit reports at
most one button click per re-execution). -/
theorem C3_start_success_initializes
    (inp : RunInput) (st st' : SessionState) (msgs : List String)
    (hvalid : ∃ cat, validate_category inp.category_input = Except.ok cat)
    (hstart : inp.startClicked = true)
    (hnosub : inp.present.submitClicked = false)
    (hok : inp.resp.status_code = 200)
    (hrc : inp.resp.response_code = 0)
    (hne : inp.resp.results ≠ [])
    (h : start_quiz inp st = some (st', msgs)) :
    st'.current_question = 0 ∧ st'.score = 0 ∧ st'.quiz_finished = false ∧
      st'.quiz_data = some inp.resp.results := by
  obtain ⟨cat, hv⟩ := hvalid
  have h2 := (start_quiz_valid hv st).symm.trans h
  rw [hstart] at h2
  have hgq : get_quiz_data cat (difficultyParam inp.difficulty_sel) inp.question_count inp.resp
      = ([], inp.resp.results) :=
    get_quiz_data_success cat (difficultyParam inp.difficulty_sel) inp.question_count hok hrc
  have hres : (get_quiz_data cat (difficultyParam inp.difficulty_sel)
      inp.question_count inp.resp).2 = inp.resp.results := by rw [hgq]
  have hne2 : (get_quiz_data cat (difficultyParam inp.difficulty_sel)
      inp.question_count inp.resp).2 ≠ [] := by rw [hres]; exact hne
  rw [handle_start_success_fst hne2 st, handle_start_success_snd hne2 st, hres] at h2
  cases hr : render_phase inp.present
      { st with current_question := 0, score := 0, quiz_finished := false,
                quiz_data := some inp.resp.results } with
  | none => rw [hr] at h2; exact Option.noConfusion h2
  | some p =>
    obtain ⟨st2, m2⟩ := p
    rw [hr] at h2
    rw [Option.some.injEq, Prod.mk.injEq] at h2
    obtain ⟨h21, -⟩ := h2
    subst h21
    have hlen : (0 : Nat) < inp.resp.results.length :=
      List.length_pos.mpr hne
    have hd := (render_phase_present inp.present
      (show _ = some inp.resp.results from rfl) rfl hlen).symm.trans hr
    have hst2 := display_question_nosubmit hnosub hd
    subst hst2
    exact ⟨by simp, by simp, by simp, by simp⟩

theorem C3_witness :
    (∃ cat, validate_category exStartInp.category_input = Except.ok cat) ∧
    exStartInp.startClicked = true ∧
    exStartInp.present.submitClicked = false ∧
    exStartInp.resp.status_code = 200 ∧
    exStartInp.resp.response_code = 0 ∧
    exStartInp.resp.results ≠ [] ∧
    start_quiz exStartInp initialState = some (exStarted, ["**Question 1:** 2+2?"]) ∧
    (exStarted.current_question = 0 ∧ exStarted.score = 0 ∧
      exStarted.quiz_finished = false ∧ exStarted.quiz_data = some exStartInp.resp.results) :=
  ⟨⟨none, rfl⟩, rfl, rfl, rfl, rfl, by decide, rfl,
   C3_start_success_initializes exStartInp initialState exStarted
     ["**Question 1:** 2+2?"] ⟨none, rfl⟩ rfl rfl rfl rfl (by decide) rfl⟩

/-! ### Claim C8 -/

/-- C8: `get_quiz_data` yields three mutually distinguishable outcomes: a
non-200 HTTP status yields the transport-failure message and an empty list; a
200 response with `response_code ≠ 0` yields the distinct no-results message
and an empty list (so the user sees a targeted message); and a 200 response
with `response_code = 0` yields no error message and exactly the provider's
`results` list (quiz.py lines 30-42). -/
theorem C8_fetch_outcomes_distinguishable (category : Option Nat)
    (difficulty : Option String) (question_count : Nat) (resp : HttpResp) :
    (resp.status_code ≠ 200 →
      get_quiz_data category difficulty question_count resp
        = (["Failed to retrieve questions. Please try again later."], [])) ∧
    (resp.status_code = 200 → resp.response_code ≠ 0 →
      get_quiz_data category difficulty question_count resp
        = (["No questions found for the selected options."], [])) ∧
    (resp.status_code = 200 → resp.response_code = 0 →
      get_quiz_data category difficulty question_count resp = ([], resp.results)) ∧
    ("Failed to retrieve questions. Please try again later."
      ≠ "No questions found for the selected options.") :=
  ⟨fun hs => get_quiz_data_transport category difficulty question_count hs,
   fun hs hc => get_quiz_data_noresults category difficulty question_count hs hc,
   fun hs hc => get_quiz_data_success category difficulty question_count hs hc,
   by decide⟩

theorem C8_witness :
    ((⟨500, 0, []⟩ : HttpResp).status_code ≠ 200 ∧
      get_quiz_data none none 5 ⟨500, 0, []⟩
        = (["Failed to retrieve questions. Please try again later."], [])) ∧
    ((⟨200, 1, []⟩ : HttpResp).status_code = 200 ∧
      (⟨200, 1, []⟩ : HttpResp).response_code ≠ 0 ∧
      get_quiz_data none none 5 ⟨200, 1, []⟩
        = (["No questions found for the selected options."], [])) ∧
    ((⟨200, 0, [exQ]⟩ : HttpResp).status_code = 200 ∧
      (⟨200, 0, [exQ]⟩ : HttpResp).response_code = 0 ∧
      get_quiz_data none none 5 ⟨200, 0, [exQ]⟩ = ([], [exQ])) :=
  ⟨⟨by decide, (C8_fetch_outcomes_distinguishable none none 5 ⟨500, 0, []⟩).1 (by decide)⟩,
   ⟨rfl, by decide, (C8_fetch_outcomes_distinguishable none none 5 ⟨200, 1, []⟩).2.1 rfl (by decide)⟩,
   ⟨rfl, rfl, (C8_fetch_outcomes_distinguishable none none 5 ⟨200, 0, [exQ]⟩).2.2.1 rfl rfl⟩⟩

/-! ### Claim C9 -/

/-- C9 is false at category id 0: the input string "0" validates to the set
category `some 0`, but `if category:` in quiz.py line 22 is falsy at 0, so the
built URL omits `category=0` — it equals the unset-category URL, contradicting
the claim's `url_per_claim` reading at this input. -/
theorem C9_counterexample :
    validate_category "0" = Except.ok (some 0) ∧
    build_url (some 0) none 5 ≠ url_per_claim (some 0) none 5 ∧
    build_url (some 0) none 5 = build_url none none 5 :=
  ⟨rfl, by decide, rfl⟩

/-- C9 (amended): the built URL always encodes `amount=count`, includes
`category=<id>` exactly when a category was set to a NONZERO id (a category
validated from the input string "0" is falsy in Python and omitted, exactly as
if unset), includes `difficulty` exactly when a non-Random difficulty was
selected, and always appends `type=multiple` — i.e. `build_url` agrees with
the spec-side `url_per_amended` on every validated configuration. -/
theorem C9_url_encoding_amended (category : Option Nat) (d : Difficulty)
    (question_count : Nat) :
    build_url category (difficultyParam d) question_count
      = url_per_amended category (difficultyParam d) question_count := by
  cases category with
  | none => cases d <;> rfl
  | some c =>
    by_cases hc : c = 0
    · subst hc; cases d <;> rfl
    · cases d <;>
        simp [build_url, url_per_amended, pyTruthyOptNat, pyTruthyOptStr, difficultyParam, hc]

/-! ### Claim C2 -/

/-- C2 is false as stated: the `all_answers_{i}` cache is never cleared, so
after a second Start replaces the question list, `answer_sets[0]` still holds
the FIRST quiz's shuffled answers, which are not a permutation of the answers
of the question now at index 0 (`exQ2`). -/
theorem C2_counterexample :
    start_quiz exStartInp initialState = some (exStarted, ["**Question 1:** 2+2?"]) ∧
    start_quiz exRestartInp exStarted
        = some (exRestarted, ["**Question 1:** Capital of France?"]) ∧
    exRestarted.quiz_data = some [exQ2] ∧
    alookup 0 exRestarted.all_answers = some ["3", "5", "6", "4"] ∧
    ¬ (["3", "5", "6", "4"] : List String).Perm
        (exQ2.incorrect_answers ++ [exQ2.correct_answer]) :=
  ⟨rfl, rfl, rfl, rfl, by decide⟩

/-- C2 (amended): a cached answer set, once created, survives every
re-execution unchanged — never regenerated or reshuffled, including across a
new Start — and a cache entry that first APPEARS in a re-execution is a
permutation of exactly `incorrect ∪ {correct}` of the question at that index
in the re-execution's (post-Start) question list.  The staleness fallout: a
new Start does not clear old entries, so an entry surviving a Start may belong
to a question no longer at that index (see the counterexample). -/
theorem C2_cache_created_once_never_regenerated
    (st st' : SessionState) (inp : RunInput) (msgs : List String)
    (hshuf : ∀ l : List String, (inp.present.shuffle l).Perm l)
    (h : start_quiz inp st = some (st', msgs)) :
    (∀ i l, alookup i st.all_answers = some l → alookup i st'.all_answers = some l) ∧
    (∀ i l, alookup i st.all_answers = none → alookup i st'.all_answers = some l →
      ∃ qd, st'.quiz_data = some qd ∧ ∃ hlt : i < qd.length,
        l.Perm ((qd.get ⟨i, hlt⟩).incorrect_answers ++ [(qd.get ⟨i, hlt⟩).correct_answer])) := by
  rcases start_quiz_step_cases h with rfl | ⟨cat, st1, hv, hstart, hrender⟩
  · refine ⟨fun i l hl => hl, fun i l hn hs => ?_⟩
    rw [hn] at hs
    exact Option.noConfusion hs
  · have hall1 : st1.all_answers = st.all_answers := by
      rcases hstart with rfl | ⟨-, -, rfl⟩ <;> rfl
    rcases hrender with rfl | ⟨qd, hlt, msgs2, hqd, hf, hd⟩ | ⟨qd, hqd, hf, hge, rfl⟩
    · refine ⟨fun i l hl => by rw [hall1]; exact hl, fun i l hn hs => ?_⟩
      rw [hall1, hn] at hs
      exact Option.noConfusion hs
    · obtain ⟨hqd', -, hall, -⟩ := display_question_changes hd
      rcases ensure_answers_cases (qd.get ⟨st1.current_question, hlt⟩)
          st1.current_question inp.present st1 with hc | ⟨hnone, hc⟩
      · rw [hc, hall1] at hall
        refine ⟨fun i l hl => by rw [hall]; exact hl, fun i l hn hs => ?_⟩
        rw [hall, hn] at hs
        exact Option.noConfusion hs
      · rw [hc, hall1] at hall
        rw [hall1] at hnone
        constructor
        · intro i l hl
          rw [hall, alookup_cons]
          have hne : i ≠ st1.current_question := by
            intro he
            rw [he, hnone] at hl
            exact Option.noConfusion hl
          rw [if_neg hne]
          exact hl
        · intro i l hn hs
          rw [hall, alookup_cons] at hs
          by_cases hie : i = st1.current_question
          · rw [if_pos hie] at hs
            rw [Option.some.injEq] at hs
            refine ⟨qd, by rw [hqd', hqd], hie ▸ hlt, ?_⟩
            rw [← hs]
            have hperm := hshuf ((qd.get ⟨st1.current_question, hlt⟩).incorrect_answers
              ++ [(qd.get ⟨st1.current_question, hlt⟩).correct_answer])
            subst hie
            exact hperm
          · rw [if_neg hie] at hs
            rw [hn] at hs
            exact Option.noConfusion hs
    · refine ⟨fun i l hl => by rw [show ({ st1 with quiz_finished := true } :
        SessionState).all_answers = st1.all_answers from rfl, hall1]; exact hl,
        fun i l hn hs => ?_⟩
      rw [show ({ st1 with quiz_finished := true } : SessionState).all_answers
        = st1.all_answers from rfl, hall1, hn] at hs
      exact Option.noConfusion hs

theorem C2_witness :
    (∀ l : List String, (exStartInp.present.shuffle l).Perm l) ∧
    start_quiz exStartInp initialState = some (exStarted, ["**Question 1:** 2+2?"]) ∧
    ((∀ i l, alookup i initialState.all_answers = some l →
        alookup i exStarted.all_answers = some l) ∧
     (∀ i l, alookup i initialState.all_answers = none →
        alookup i exStarted.all_answers = some l →
        ∃ qd, exStarted.quiz_data = some qd ∧ ∃ hlt : i < qd.length,
          l.Perm ((qd.get ⟨i, hlt⟩).incorrect_answers
            ++ [(qd.get ⟨i, hlt⟩).correct_answer]))) :=
  ⟨fun l => List.Perm.refl l, rfl,
   C2_cache_created_once_never_regenerated initialState exStarted exStartInp
     ["**Question 1:** 2+2?"] (fun l => List.Perm.refl l) rfl⟩

/-! ### Claim C5 -/

/-- C5: (1) submitting on the last question (`qd.length = current + 1`) leaves
`current_question = qd.length`; (2) the next render pass, seeing
`current_question = qd.length`, sets `quiz_finished := true` and writes the
summary line — rendered as the markdown heading `### ` followed by exactly
`Quiz finished! Your final score is {score}/{total}.`; (3) the only way a
successful re-execution leaves the finished state is a Start click whose fetch
succeeded with a non-empty list (quiz.py lines 114-135).  Parts (1) and (2)
assume the category input validates (otherwise the script stops early) and
that Start was not clicked in the same re-execution. -/
theorem C5_finish_and_stay_finished :
    (∀ (st st' : SessionState) (inp : RunInput) (msgs : List String) (qd : List Question),
      (∃ cat, validate_category inp.category_input = Except.ok cat) →
      st.quiz_data = some qd → st.quiz_finished = false →
      qd.length = st.current_question + 1 →
      inp.startClicked = false → inp.present.submitClicked = true →
      start_quiz inp st = some (st', msgs) →
      st'.current_question = qd.length) ∧
    (∀ (st st' : SessionState) (inp : RunInput) (msgs : List String) (qd : List Question),
      (∃ cat, validate_category inp.category_input = Except.ok cat) →
      st.quiz_data = some qd → st.quiz_finished = false →
      st.current_question = qd.length →
      inp.startClicked = false →
      start_quiz inp st = some (st', msgs) →
      st'.quiz_finished = true ∧
      ("### " ++ ("Quiz finished! Your final score is " ++ toString st.score ++ "/"
          ++ toString qd.length ++ ".")) ∈ msgs) ∧
    (∀ (st st' : SessionState) (inp : RunInput) (msgs : List String),
      st.quiz_finished = true →
      start_quiz inp st = some (st', msgs) →
      st'.quiz_finished = false →
      inp.startClicked = true ∧ inp.resp.results ≠ [] ∧
        st'.quiz_data = some inp.resp.results) := by
  refine ⟨?_, ?_, ?_⟩
  · intro st st' inp msgs qd hvalid hqd hf hlen hns hsub h
    obtain ⟨cat, hv⟩ := hvalid
    have h2 := (start_quiz_no_start hv hns st).symm.trans h
    have hlt : st.current_question < qd.length := by omega
    have hd := (render_phase_present inp.present hqd hf hlt).symm.trans h2
    obtain ⟨-, -, -, hcases⟩ := display_question_changes hd
    rcases hcases with ⟨hfalse, -⟩ | ⟨-, hcur, -, -⟩
    · rw [hsub] at hfalse
      exact Bool.noConfusion hfalse
    · rw [hcur]
      omega
  · intro st st' inp msgs qd hvalid hqd hf hcur hns h
    obtain ⟨cat, hv⟩ := hvalid
    have h2 := (start_quiz_no_start hv hns st).symm.trans h
    have hge : ¬ st.current_question < qd.length := by omega
    have hs := (render_phase_summary inp.present hqd hf hge).symm.trans h2
    rw [Option.some.injEq, Prod.mk.injEq] at hs
    obtain ⟨h21, h22⟩ := hs
    constructor
    · rw [← h21]
    · rw [← h22]
      have hm := summary_message_split (toString st.score) (toString qd.length)
      simp only [List.mem_singleton]
      exact hm.symm
  · intro st st' inp msgs hfin h hnot
    rcases start_quiz_step_cases h with rfl | ⟨cat, st1, hv, hstart, hrender⟩
    · rw [hfin] at hnot
      exact Bool.noConfusion hnot
    · rcases hstart with rfl | ⟨hb, hne, hst1⟩
      · rcases hrender with rfl | ⟨qd, hlt, m2, hqd, hf, hd⟩ | ⟨qd, hqd, hf, hge, rfl⟩
        · rw [hfin] at hnot
          exact Bool.noConfusion hnot
        · rw [hfin] at hf
          exact Bool.noConfusion hf
        · rw [hfin] at hf
          exact Bool.noConfusion hf
      · obtain ⟨hs200, hrc0, hres⟩ := get_quiz_data_nonempty hne
        refine ⟨hb, by rw [← hres]; exact hne, ?_⟩
        rcases hrender with rfl | ⟨qd, hlt, m2, hqd2, hf, hd⟩ | ⟨qd, hqd2, hf, hge, rfl⟩
        · rw [hst1]
          show some _ = some inp.resp.results
          rw [hres]
        · obtain ⟨hqd', -, -, -⟩ := display_question_changes hd
          rw [hqd', hst1]
          show some _ = some inp.resp.results
          rw [hres]
        · exact absurd hnot (by simp)

theorem C5_witness :
    ((∃ cat, validate_category exSubmitRun.category_input = Except.ok cat) ∧
      exStarted.quiz_data = some [exQ] ∧ exStarted.quiz_finished = false ∧
      ([exQ] : List Question).length = exStarted.current_question + 1 ∧
      exSubmitRun.startClicked = false ∧ exSubmitRun.present.submitClicked = true ∧
      start_quiz exSubmitRun exStarted
        = some (exDone, ["**Question 1:** 2+2?", "Wrong! The correct answer was: 4"]) ∧
      exDone.current_question = ([exQ] : List Question).length) ∧
    ((∃ cat, validate_category exIdleRun.category_input = Except.ok cat) ∧
      exDone.quiz_data = some [exQ] ∧ exDone.quiz_finished = false ∧
      exDone.current_question = ([exQ] : List Question).length ∧
      exIdleRun.startClicked = false ∧
      start_quiz exIdleRun exDone
        = some (exFinished, ["### Quiz finished! Your final score is 0/1."]) ∧
      (exFinished.quiz_finished = true ∧
        ("### " ++ ("Quiz finished! Your final score is " ++ toString exDone.score ++ "/"
            ++ toString ([exQ] : List Question).length ++ "."))
          ∈ ["### Quiz finished! Your final score is 0/1."])) ∧
    (exFinished.quiz_finished = true ∧
      start_quiz exStartInp exFinished
        = some (exRestartedAfterFinish, ["**Question 1:** 2+2?"]) ∧
      exRestartedAfterFinish.quiz_finished = false ∧
      (exStartInp.startClicked = true ∧ exStartInp.resp.results ≠ [] ∧
        exRestartedAfterFinish.quiz_data = some exStartInp.resp.results)) :=
  ⟨⟨⟨none, rfl⟩, rfl, rfl, rfl, rfl, rfl, rfl,
    C5_finish_and_stay_finished.1 exStarted exDone exSubmitRun
      ["**Question 1:** 2+2?", "Wrong! The correct answer was: 4"] [exQ]
      ⟨none, rfl⟩ rfl rfl rfl rfl rfl rfl⟩,
   ⟨⟨none, rfl⟩, rfl, rfl, rfl, rfl, rfl,
    C5_finish_and_stay_finished.2.1 exDone exFinished exIdleRun
      ["### Quiz finished! Your final score is 0/1."] [exQ]
      ⟨none, rfl⟩ rfl rfl rfl rfl rfl⟩,
   ⟨rfl, rfl, rfl,
    C5_finish_and_stay_finished.2.2 exFinished exRestartedAfterFinish exStartInp
      ["**Question 1:** 2+2?"] rfl rfl rfl⟩⟩

/-! ### Claim C6 -/

/-- C6 is false as stated: from the transient state after submitting the last
question (`current_question = 1 = N`, `quiz_finished = false`), a Start click
whose fetch fails (HTTP 500) still runs the render phase of the same
re-execution, which sets `quiz_finished := true` — so the prior session's
`finished` field is NOT left unchanged. -/
theorem C6_counterexample :
    start_quiz exStartInp initialState = some (exStarted, ["**Question 1:** 2+2?"]) ∧
    start_quiz exSubmitRun exStarted
        = some (exDone, ["**Question 1:** 2+2?", "Wrong! The correct answer was: 4"]) ∧
    exDone.quiz_finished = false ∧
    exFailRun.startClicked = true ∧
    exFailRun.resp.status_code ≠ 200 ∧
    start_quiz exFailRun exDone
        = some (exFinished,
            ["Failed to retrieve questions. Please try again later.",
             "### Quiz finished! Your final score is 0/1."]) ∧
    exFinished.quiz_finished = true :=
  ⟨rfl, rfl, rfl, rfl, by decide, rfl, rfl⟩

/-- C6 (amended): a Start click whose fetch fails (non-200, `response_code ≠ 0`
or an empty list) writes nothing itself — the Start block returns the state
unchanged in every field — and the whole re-execution produces exactly the
session state an identical re-execution without the Start click would produce
(only the fetch error message is added).  In particular nothing is reset or
partially initialized by the failed start; any change to the session is the
same lazy render-phase behavior every re-execution performs. -/
theorem C6_failed_start_behaves_like_no_start
    (inp : RunInput) (st : SessionState)
    (hstart : inp.startClicked = true)
    (hfail : inp.resp.status_code ≠ 200 ∨ inp.resp.response_code ≠ 0 ∨
      inp.resp.results = []) :
    (∀ category difficulty,
      (handle_start true category difficulty inp.question_count inp.resp st).1 = st) ∧
    (∀ st' msgs, start_quiz inp st = some (st', msgs) →
      ∃ msgs2, start_quiz { inp with startClicked := false } st = some (st', msgs2)) := by
  constructor
  · intro category difficulty
    exact handle_start_failed_fst
      (get_quiz_data_empty category difficulty inp.question_count hfail) st
  · intro st' msgs h
    cases hv : validate_category inp.category_input with
    | error msg =>
      have h2 := (start_quiz_invalid hv st).symm.trans h
      rw [Option.some.injEq, Prod.mk.injEq] at h2
      obtain ⟨h21, -⟩ := h2
      refine ⟨[msg], ?_⟩
      rw [← h21]
      exact start_quiz_invalid
        (show validate_category ({ inp with startClicked := false } : RunInput).category_input
          = Except.error msg from hv) st
    | ok cat =>
      have h2 := (start_quiz_valid hv st).symm.trans h
      rw [hstart] at h2
      have hempty := get_quiz_data_empty cat (difficultyParam inp.difficulty_sel)
        inp.question_count hfail
      rw [handle_start_failed_fst hempty st, handle_start_failed_snd hempty st] at h2
      cases hr : render_phase inp.present st with
      | none => rw [hr] at h2; exact Option.noConfusion h2
      | some p =>
        obtain ⟨st2, m2⟩ := p
        rw [hr] at h2
        rw [Option.some.injEq, Prod.mk.injEq] at h2
        obtain ⟨h21, -⟩ := h2
        refine ⟨m2, ?_⟩
        rw [start_quiz_no_start
          (show validate_category ({ inp with startClicked := false } : RunInput).category_input
            = Except.ok cat from hv) rfl st]
        rw [show ({ inp with startClicked := false } : RunInput).present = inp.present from rfl,
          hr, h21]

theorem C6_witness :
    (exFailRun.startClicked = true ∧
      (exFailRun.resp.status_code ≠ 200 ∨ exFailRun.resp.response_code ≠ 0 ∨
        exFailRun.resp.results = [])) ∧
    ((∀ category difficulty,
        (handle_start true category difficulty exFailRun.question_count
          exFailRun.resp exDone).1 = exDone) ∧
     (∀ st' msgs, start_quiz exFailRun exDone = some (st', msgs) →
        ∃ msgs2, start_quiz { exFailRun with startClicked := false } exDone
          = some (st', msgs2))) :=
  ⟨⟨rfl, Or.inl (by decide)⟩,
   C6_failed_start_behaves_like_no_start exFailRun exDone rfl (Or.inl (by decide))⟩

/-! ### Claim C7 -/

/-- C7 is false as stated: the whitespace-only input `" "` is non-empty and is
not a non-negative integer string, yet it does not abort — `isdigit` fails but
`strip` reduces it to the blank case, so the category is treated as unset and
a Start click proceeds all the way to a fetched, initialized session. -/
theorem C7_counterexample :
    validate_category " " = Except.ok none ∧
    (" " : String) ≠ "" ∧
    str_isdigit " " = false ∧
    initialState.quiz_data = none ∧
    start_quiz exWsInp initialState = some (exStarted, ["**Question 1:** 2+2?"]) ∧
    exStarted.quiz_data = some [exQ] :=
  ⟨rfl, by decide, by decide, rfl, rfl, rfl⟩

/-- C7 (amended): for every category input that is not a digit string and does
not strip to the empty string (i.e. is non-blank), the re-execution stops at
the validation error: the session state is returned completely unchanged and
the only output is the validation message — in particular no fetch and no
Start-block or render-phase effect happens. -/
theorem C7_invalid_category_aborts
    (inp : RunInput) (st : SessionState)
    (hnd : str_isdigit inp.category_input = false)
    (hnb : str_strip inp.category_input ≠ "") :
    start_quiz inp st
      = some (st,
          ["Invalid category ID. Please enter a valid number or leave it blank for random."]) := by
  have hv : validate_category inp.category_input
      = Except.error
          "Invalid category ID. Please enter a valid number or leave it blank for random." := by
    unfold validate_category
    rw [hnd]
    simp [hnb]
  exact start_quiz_invalid hv st

theorem C7_witness :
    str_isdigit exBadInp.category_input = false ∧
    str_strip exBadInp.category_input ≠ "" ∧
    start_quiz exBadInp initialState
      = some (initialState,
          ["Invalid category ID. Please enter a valid number or leave it blank for random."]) :=
  ⟨by decide, by decide,
   C7_invalid_category_aborts exBadInp initialState (by decide) (by decide)⟩

/-! ### Claim C4 -/

/-- C4: in every reachable session state, `0 ≤ current_question ≤ N` and
`score ≤ current_question` hold (`N` the question-list length; the lower bound
is inherent in the `Nat` embedding of the non-negative Python counter); and in
any successful re-execution without a Start click the counters either stay put
or `current_question` advances by exactly 1 with `score` increasing by 0 or 1
— so the score never decreases and gains at most 1 per advancement. -/
theorem C4_counters_invariant :
    (∀ st : SessionState, Reachable st →
      st.score ≤ st.current_question ∧
      ∀ qd, st.quiz_data = some qd → st.current_question ≤ qd.length) ∧
    (∀ (st st' : SessionState) (inp : RunInput) (msgs : List String),
      inp.startClicked = false →
      start_quiz inp st = some (st', msgs) →
      (st'.score = st.score ∧ st'.current_question = st.current_question) ∨
      (st'.current_question = st.current_question + 1 ∧
        (st'.score = st.score ∨ st'.score = st.score + 1))) := by
  constructor
  · intro st h
    exact ⟨(reachable_inv h).1.1, (reachable_inv h).1.2⟩
  · intro st st' inp msgs hns h
    rcases start_quiz_step_cases h with rfl | ⟨cat, st1, hv, hstart, hrender⟩
    · exact Or.inl ⟨rfl, rfl⟩
    · have hst1 : st1 = st := by
        rcases hstart with rfl | ⟨hb, -, -⟩
        · rfl
        · rw [hns] at hb
          exact Bool.noConfusion hb
      subst hst1
      rcases hrender with rfl | ⟨qd, hlt, m2, hqd, hf, hd⟩ | ⟨qd, hqd, hf, hge, rfl⟩
      · exact Or.inl ⟨rfl, rfl⟩
      · obtain ⟨-, -, -, hcases⟩ := display_question_changes hd
        rcases hcases with ⟨-, hcur, hsc, -⟩ | ⟨-, hcur, hsc, -⟩
        · exact Or.inl ⟨hsc, hcur⟩
        · exact Or.inr ⟨hcur, hsc⟩
      · exact Or.inl ⟨rfl, rfl⟩

theorem C4_witness :
    (Reachable exDone ∧
      (exDone.score ≤ exDone.current_question ∧
        ∀ qd, exDone.quiz_data = some qd → exDone.current_question ≤ qd.length)) ∧
    (exSubmitRun.startClicked = false ∧
      ((exDone.score = exStarted.score ∧
          exDone.current_question = exStarted.current_question) ∨
       (exDone.current_question = exStarted.current_question + 1 ∧
         (exDone.score = exStarted.score ∨ exDone.score = exStarted.score + 1)))) := by
  have h1 : Reachable exStarted :=
    Reachable.step Reachable.init
      (show start_quiz exStartInp initialState
        = some (exStarted, ["**Question 1:** 2+2?"]) from rfl)
  have h2 : Reachable exDone :=
    Reachable.step h1
      (show start_quiz exSubmitRun exStarted
        = some (exDone, ["**Question 1:** 2+2?", "Wrong! The correct answer was: 4"]) from rfl)
  exact ⟨⟨h2, C4_counters_invariant.1 exDone h2⟩,
    ⟨rfl, C4_counters_invariant.2 exStarted exDone exSubmitRun
      ["**Question 1:** 2+2?", "Wrong! The correct answer was: 4"] rfl rfl⟩⟩

/-! ### Claim C10 -/

/-- C10: from every reachable session state, no re-execution can crash — in
particular the `all_answers.index(selected[i])` lookup behind
`radio_default_index` never raises, because whenever a stored selection is
truthy it is an element of the cached answer list at the same index; and
whenever the stored selection is falsy (Python `None` or the empty string) the
radio pre-selects position 0, the first option of the shuffled list
(quiz.py lines 71-81). -/
theorem C10_preselection_lookup_safe
    (st : SessionState) (hst : Reachable st) :
    (∀ inp : RunInput, start_quiz inp st ≠ none) ∧
    (∀ i l v, alookup i st.all_answers = some l → alookup i st.selected = some v →
      (radio_default_index l v).isSome = true ∧
      (pyTruthyOptStr v = false → radio_default_index l v = some 0)) := by
  have hI := (reachable_inv hst).2
  constructor
  · intro inp
    exact no_crash_of_selInv hI
  · intro i l v hl hv
    constructor
    · obtain ⟨l2, hl2, hmem⟩ := hI i v hv
      rw [hl] at hl2
      rw [Option.some.injEq] at hl2
      subst hl2
      cases v with
      | none => simp [radio_default_index, pyTruthyOptStr]
      | some s =>
        by_cases hne : s = ""
        · subst hne
          simp [radio_default_index, pyTruthyOptStr]
        · unfold radio_default_index
          rw [if_pos (by simp [pyTruthyOptStr, hne])]
          exact list_index_isSome_of_mem (hmem s rfl hne)
    · intro hfalsy
      simp [radio_default_index, hfalsy]

theorem C10_witness :
    Reachable exDone ∧
    ((start_quiz exIdleRun exDone ≠ none) ∧
     (alookup 0 exDone.all_answers = some ["3", "5", "6", "4"] ∧
      alookup 0 exDone.selected = some (some "3") ∧
      (radio_default_index ["3", "5", "6", "4"] (some "3")).isSome = true ∧
      (pyTruthyOptStr (some "3") = false →
        radio_default_index ["3", "5", "6", "4"] (some "3") = some 0))) := by
  have h1 : Reachable exStarted :=
    Reachable.step Reachable.init
      (show start_quiz exStartInp initialState
        = some (exStarted, ["**Question 1:** 2+2?"]) from rfl)
  have h2 : Reachable exDone :=
    Reachable.step h1
      (show start_quiz exSubmitRun exStarted
        = some (exDone, ["**Question 1:** 2+2?", "Wrong! The correct answer was: 4"]) from rfl)
  refine ⟨h2, (C10_preselection_lookup_safe exDone h2).1 exIdleRun, rfl, rfl,
    ((C10_preselection_lookup_safe exDone h2).2 0 ["3", "5", "6", "4"] (some "3") rfl rfl).1,
    ((C10_preselection_lookup_safe exDone h2).2 0 ["3", "5", "6", "4"] (some "3") rfl rfl).2⟩

end Quiz
